import Mathlib

/-!
Verification development for the `06-objects-tasks.js` module: the
`cssSelectorBuilder` CSS-selector facade and the `getJSON` / `fromJSON`
helpers.

The builder is a single mutable JavaScript object whose methods either
mutate the receiver in place (`class`, `attr`, `pseudoClass`, `combine`,
`stringify`) or shallow-copy it and mutate the copy (`element`, `id`,
`pseudoElement`).  Because object identity and in-place mutation are
observable (chains started from the shared facade can alias one another),
we embed the code in a small heap model: a `Store` is the list of selector
objects allocated so far, and an object reference is its index in that
list.  Each method becomes a function from a store and a receiver
reference to an updated store together with either a result reference or
the thrown error's message (JavaScript `throw new Error(msg)` is modelled
as an `Except.error msg` outcome).
-/

namespace ObjectsTasks

/-- The own data properties of the `cssSelectorBuilder` object (and of every
shallow copy of it made by `element` / `id` / `pseudoElement`): the
accumulated text `res`, the three duplicate-occurrence flags, and the rank
`index` of the most recently appended part (`-1` initially).  The `order`
array is the same constant list on every copy, so it is kept as a global
definition below rather than as a field. -/
structure Selector where
  res : String
  isEl : Bool
  isId : Bool
  isPsEl : Bool
  index : Int
deriving Repr, DecidableEq

/-- The initial property values of `cssSelectorBuilder`:
`res: ''`, `isEl: false`, `isId: false`, `isPsEl: false`, `index: -1`. -/
def initSelector : Selector :=
  { res := "", isEl := false, isId := false, isPsEl := false, index := -1 }

/-- The `order` property:
`['element', 'id', 'class', 'attribute', 'pseudo-class', 'pseudo-element']`. -/
def order : List String :=
  ["element", "id", "class", "attribute", "pseudo-class", "pseudo-element"]

/-- JavaScript `Array.prototype.indexOf`: the index of the first occurrence,
or `-1` when the element does not occur (Lean's `List.indexOf` returns the
length in that case). -/
def indexOfJS (l : List String) (k : String) : Int :=
  if l.indexOf k < l.length then ((l.indexOf k : Nat) : Int) else -1

/-- The heap: all selector objects allocated so far, indexed by reference. -/
abbrev Store := List Selector

/-- Dereference `r` in store `st`.  Every reference produced by the
operations below is in bounds; the default is never read on those. -/
def selAt (st : Store) (r : Nat) : Selector := st.getD r initSelector

/-- The message of the error thrown by `getErr()` (note the source spells
"more then one time" and has no trailing period). -/
def getErr : String :=
  "Element, id and pseudo-element should not occur more then one time inside the selector"

/-- The message of the error thrown by `getErrOrder()`. -/
def getErrOrder : String :=
  "Selector parts should be arranged in the following order: element, id, class, attribute, pseudo-class, pseudo-element"

/-- `element(value)`: if `this.isEl` throw the duplicate error; otherwise
shallow-copy `this`, set `isEl`, append `value` to `res`, then either throw
the order error (when `index > order.indexOf('element')`; the copy is
already allocated at that point but unreachable) or set `index` and return
the copy (a fresh reference at the end of the store). -/
def element (st : Store) (r : Nat) (value : String) : Store × Except String Nat :=
  let s := selAt st r
  if s.isEl then (st, .error getErr)
  else
    let c := { s with isEl := true, res := s.res ++ value }
    if c.index > indexOfJS order "element" then (st ++ [c], .error getErrOrder)
    else (st ++ [{ c with index := indexOfJS order "element" }], .ok st.length)

/-- `id(value)`: same shape as `element`, flag `isId`, fragment `#value`,
rank `order.indexOf('id')`. -/
def id (st : Store) (r : Nat) (value : String) : Store × Except String Nat :=
  let s := selAt st r
  if s.isId then (st, .error getErr)
  else
    let c := { s with isId := true, res := s.res ++ "#" ++ value }
    if c.index > indexOfJS order "id" then (st ++ [c], .error getErrOrder)
    else (st ++ [{ c with index := indexOfJS order "id" }], .ok st.length)

/-- `class(value)`: throw the order error when
`this.index > order.indexOf('class')`, otherwise set `this.index`; then
append `.value` to `this.res` and return `this` itself (in-place mutation
of the receiver, no copy). -/
def «class» (st : Store) (r : Nat) (value : String) : Store × Except String Nat :=
  let s := selAt st r
  if s.index > indexOfJS order "class" then (st, .error getErrOrder)
  else
    let s1 := { s with index := indexOfJS order "class" }
    let s2 := { s1 with res := s1.res ++ "." ++ value }
    (st.set r s2, .ok r)

/-- `attr(value)`: like `class` with fragment `[value]` and rank
`order.indexOf('attribute')`. -/
def attr (st : Store) (r : Nat) (value : String) : Store × Except String Nat :=
  let s := selAt st r
  if s.index > indexOfJS order "attribute" then (st, .error getErrOrder)
  else
    let s1 := { s with index := indexOfJS order "attribute" }
    let s2 := { s1 with res := s1.res ++ "[" ++ value ++ "]" }
    (st.set r s2, .ok r)

/-- `pseudoClass(value)`: like `class` with fragment `:value` and rank
`order.indexOf('pseudo-class')`. -/
def pseudoClass (st : Store) (r : Nat) (value : String) : Store × Except String Nat :=
  let s := selAt st r
  if s.index > indexOfJS order "pseudo-class" then (st, .error getErrOrder)
  else
    let s1 := { s with index := indexOfJS order "pseudo-class" }
    let s2 := { s1 with res := s1.res ++ ":" ++ value }
    (st.set r s2, .ok r)

/-- `pseudoElement(value)`: same shape as `element`, flag `isPsEl`,
fragment `::value`, rank `order.indexOf('pseudo-element')`. -/
def pseudoElement (st : Store) (r : Nat) (value : String) : Store × Except String Nat :=
  let s := selAt st r
  if s.isPsEl then (st, .error getErr)
  else
    let c := { s with isPsEl := true, res := s.res ++ "::" ++ value }
    if c.index > indexOfJS order "pseudo-element" then (st ++ [c], .error getErrOrder)
    else (st ++ [{ c with index := indexOfJS order "pseudo-element" }], .ok st.length)

/-- `stringify()`: read `this.res` into a buffer, reset `this.res` to `''`
and `this.index` to `-1` (the three flags are untouched), and return the
buffer. -/
def stringify (st : Store) (r : Nat) : Store × String :=
  let s := selAt st r
  (st.set r { s with res := "", index := -1 }, s.res)

/-- `combine(selector1, combinator, selector2)`: evaluate
`selector1.stringify()`, then `selector2.stringify()` (left-to-right as in
the template literal, each resetting its receiver), assign
`` `${text1} ${combinator} ${text2}` `` to `this.res`, and return `this`. -/
def combine (st : Store) (rThis : Nat) (selector1 : Nat) (combinator : String)
    (selector2 : Nat) : Store × Nat :=
  let p1 := stringify st selector1
  let p2 := stringify p1.1 selector2
  let s := selAt p2.1 rThis
  (p2.1.set rThis { s with res := p1.2 ++ " " ++ combinator ++ " " ++ p2.2 }, rThis)

/-- The initial heap: just the `cssSelectorBuilder` facade object, at
reference `0`. -/
def initStore : Store := [initSelector]

end ObjectsTasks

namespace ObjectsTasks

/-! ### Store and rank helper lemmas -/

lemma selAt_concat_length (st : Store) (c : Selector) :
    selAt (st ++ [c]) st.length = c := by
  simp [selAt, List.getD, List.getElem?_concat_length]

lemma selAt_append_left {st : Store} {r : Nat} (c : Selector) (h : r < st.length) :
    selAt (st ++ [c]) r = selAt st r := by
  simp [selAt, List.getD, List.getElem?_append_left h]

lemma selAt_set_self {st : Store} {r : Nat} (x : Selector) (h : r < st.length) :
    selAt (st.set r x) r = x := by
  simp [selAt, List.getD, List.getElem?_set_self', List.getElem?_eq_getElem h]

lemma selAt_set_ne (st : Store) (x : Selector) {i j : Nat} (h : i ≠ j) :
    selAt (st.set i x) j = selAt st j := by
  simp [selAt, List.getD, List.getElem?_set_ne h]

lemma rank_element : indexOfJS order "element" = 0 := by decide

lemma rank_id : indexOfJS order "id" = 1 := by decide

lemma rank_class : indexOfJS order "class" = 2 := by decide

lemma rank_attribute : indexOfJS order "attribute" = 3 := by decide

lemma rank_pseudo_class : indexOfJS order "pseudo-class" = 4 := by decide

lemma rank_pseudo_element : indexOfJS order "pseudo-element" = 5 := by decide

/-! ### Characterization lemmas: one per branch of each method -/

lemma element_dup {st : Store} {r : Nat} (v : String) (h : (selAt st r).isEl = true) :
    element st r v = (st, .error getErr) := by
  simp only [element]
  rw [if_pos h]

lemma element_err {st : Store} {r : Nat} (v : String) (h : (selAt st r).isEl = false)
    (h2 : 0 < (selAt st r).index) :
    element st r v =
      (st ++ [{ selAt st r with isEl := true, res := (selAt st r).res ++ v }],
       .error getErrOrder) := by
  simp only [element, rank_element, h]
  rw [if_neg (by simp), if_pos (by simpa using h2)]

lemma element_ok {st : Store} {r : Nat} (v : String) (h : (selAt st r).isEl = false)
    (h2 : (selAt st r).index ≤ 0) :
    element st r v =
      (st ++ [{ selAt st r with isEl := true, res := (selAt st r).res ++ v, index := 0 }],
       .ok st.length) := by
  simp only [element, rank_element, h]
  rw [if_neg (by simp), if_neg (by simpa using not_lt.mpr h2)]

lemma id_dup {st : Store} {r : Nat} (v : String) (h : (selAt st r).isId = true) :
    id st r v = (st, .error getErr) := by
  simp only [id]
  rw [if_pos h]

lemma id_err {st : Store} {r : Nat} (v : String) (h : (selAt st r).isId = false)
    (h2 : 1 < (selAt st r).index) :
    id st r v =
      (st ++ [{ selAt st r with isId := true, res := (selAt st r).res ++ "#" ++ v }],
       .error getErrOrder) := by
  simp only [id, rank_id, h]
  rw [if_neg (by simp), if_pos (by simpa using h2)]

lemma id_ok {st : Store} {r : Nat} (v : String) (h : (selAt st r).isId = false)
    (h2 : (selAt st r).index ≤ 1) :
    id st r v =
      (st ++
        [{ selAt st r with isId := true, res := (selAt st r).res ++ "#" ++ v, index := 1 }],
       .ok st.length) := by
  simp only [id, rank_id, h]
  rw [if_neg (by simp), if_neg (by simpa using not_lt.mpr h2)]

lemma class_err {st : Store} {r : Nat} (v : String) (h : 2 < (selAt st r).index) :
    «class» st r v = (st, .error getErrOrder) := by
  simp only [«class», rank_class]
  rw [if_pos (by simpa using h)]

lemma class_ok {st : Store} {r : Nat} (v : String) (h : (selAt st r).index ≤ 2) :
    «class» st r v =
      (st.set r { selAt st r with res := (selAt st r).res ++ "." ++ v, index := 2 },
       .ok r) := by
  simp only [«class», rank_class]
  rw [if_neg (by simpa using not_lt.mpr h)]

lemma attr_err {st : Store} {r : Nat} (v : String) (h : 3 < (selAt st r).index) :
    attr st r v = (st, .error getErrOrder) := by
  simp only [attr, rank_attribute]
  rw [if_pos (by simpa using h)]

lemma attr_ok {st : Store} {r : Nat} (v : String) (h : (selAt st r).index ≤ 3) :
    attr st r v =
      (st.set r { selAt st r with res := (selAt st r).res ++ "[" ++ v ++ "]", index := 3 },
       .ok r) := by
  simp only [attr, rank_attribute]
  rw [if_neg (by simpa using not_lt.mpr h)]

lemma pseudoClass_err {st : Store} {r : Nat} (v : String) (h : 4 < (selAt st r).index) :
    pseudoClass st r v = (st, .error getErrOrder) := by
  simp only [pseudoClass, rank_pseudo_class]
  rw [if_pos (by simpa using h)]

lemma pseudoClass_ok {st : Store} {r : Nat} (v : String) (h : (selAt st r).index ≤ 4) :
    pseudoClass st r v =
      (st.set r { selAt st r with res := (selAt st r).res ++ ":" ++ v, index := 4 },
       .ok r) := by
  simp only [pseudoClass, rank_pseudo_class]
  rw [if_neg (by simpa using not_lt.mpr h)]

lemma pseudoElement_dup {st : Store} {r : Nat} (v : String)
    (h : (selAt st r).isPsEl = true) :
    pseudoElement st r v = (st, .error getErr) := by
  simp only [pseudoElement]
  rw [if_pos h]

lemma pseudoElement_err {st : Store} {r : Nat} (v : String)
    (h : (selAt st r).isPsEl = false) (h2 : 5 < (selAt st r).index) :
    pseudoElement st r v =
      (st ++ [{ selAt st r with isPsEl := true, res := (selAt st r).res ++ "::" ++ v }],
       .error getErrOrder) := by
  simp only [pseudoElement, rank_pseudo_element, h]
  rw [if_neg (by simp), if_pos (by simpa using h2)]

lemma pseudoElement_ok {st : Store} {r : Nat} (v : String)
    (h : (selAt st r).isPsEl = false) (h2 : (selAt st r).index ≤ 5) :
    pseudoElement st r v =
      (st ++
        [{ selAt st r with isPsEl := true, res := (selAt st r).res ++ "::" ++ v, index := 5 }],
       .ok st.length) := by
  simp only [pseudoElement, rank_pseudo_element, h]
  rw [if_neg (by simp), if_neg (by simpa using not_lt.mpr h2)]

lemma stringify_eq (st : Store) (r : Nat) :
    stringify st r =
      (st.set r { selAt st r with res := "", index := -1 }, (selAt st r).res) := rfl

end ObjectsTasks

namespace ObjectsTasks

/-! ### Claim theorems -/

/-- Claim C3: starting from a fresh builder, the chain
`element('div').id('main').class('container').class('draggable')` followed by
`stringify()` returns exactly `'div#main.container.draggable'`: the element
value verbatim, the id prefixed with `#`, each class prefixed with `.`,
concatenated in call order.  (`element` and `id` allocate fresh objects,
references 1 and 2; the two `class` calls mutate reference 2 in place.) -/
theorem c3_chain_renders_concatenation :
    (element initStore 0 "div").2 = .ok 1
  ∧ (id (element initStore 0 "div").1 1 "main").2 = .ok 2
  ∧ («class» (id (element initStore 0 "div").1 1 "main").1 2 "container").2 = .ok 2
  ∧ («class» («class» (id (element initStore 0 "div").1 1 "main").1 2 "container").1
      2 "draggable").2 = .ok 2
  ∧ (stringify
      ((«class» («class» (id (element initStore 0 "div").1 1 "main").1 2 "container").1
        2 "draggable").1) 2).2 = "div#main.container.draggable" :=
  ⟨rfl, rfl, rfl, rfl, rfl⟩

/-- Claim C2, counterexample: a second `element` call on one chain does fail,
but the error message it carries is the source's
`'... more then one time inside the selector'` (spelled "then", no trailing
period), not the claimed "... more than one time inside the selector.". -/
theorem c2_counterexample_message :
    (element (element initStore 0 "div").1 1 "span").2 = .error getErr
  ∧ getErr ≠
      "Element, id and pseudo-element should not occur more than one time inside the selector." :=
  ⟨rfl, by decide⟩

/-- Claim C2 (amended): a second invocation of `element`, `id`, or
`pseudoElement` within one chain fails with the duplicate-part error, whose
message is exactly
`"Element, id and pseudo-element should not occur more then one time inside the selector"`
(the source spells "then" and has no trailing period). -/
theorem c2_duplicate_error_message (st : Store) (r : Nat) (v : String) :
    ((selAt st r).isEl = true → (element st r v).2 = .error getErr)
  ∧ ((selAt st r).isId = true → (id st r v).2 = .error getErr)
  ∧ ((selAt st r).isPsEl = true → (pseudoElement st r v).2 = .error getErr)
  ∧ getErr =
      "Element, id and pseudo-element should not occur more then one time inside the selector" := by
  refine ⟨fun h => ?_, fun h => ?_, fun h => ?_, rfl⟩
  · rw [element_dup v h]
  · rw [id_dup v h]
  · rw [pseudoElement_dup v h]

/-- A store whose single selector already carries every restricted part. -/
def dupAll : Store := [{ res := "x", isEl := true, isId := true, isPsEl := true, index := 5 }]

/-- Witness for C2's theorem at a concrete selector with all flags set. -/
theorem c2_witness :
    (element dupAll 0 "a").2 = .error getErr
  ∧ (id dupAll 0 "a").2 = .error getErr
  ∧ (pseudoElement dupAll 0 "a").2 = .error getErr := by
  have h := c2_duplicate_error_message dupAll 0 "a"
  exact ⟨h.1 rfl, h.2.1 rfl, h.2.2.1 rfl⟩

/-- Claim C5: `stringify` returns the accumulated text, and resets the
accumulation state of the selector it is called on — text cleared to `""`
and rank reset to the initial `-1` — so a chain subsequently restarted on
that same object (here with `class`) renders only its own fragment, with no
residue of the previous chain's text or rank. -/
theorem c5_stringify_resets (st : Store) (r : Nat) (v : String) (h : r < st.length) :
    (stringify st r).2 = (selAt st r).res
  ∧ (selAt (stringify st r).1 r).res = ""
  ∧ (selAt (stringify st r).1 r).index = -1
  ∧ (stringify ((«class» (stringify st r).1 r v).1) r).2 = "." ++ v := by
  have h1 : selAt (stringify st r).1 r = { selAt st r with res := "", index := -1 } := by
    rw [stringify_eq]
    exact selAt_set_self _ h
  refine ⟨rfl, by rw [h1], by rw [h1], ?_⟩
  rw [class_ok v (by rw [h1]; simp)]
  have hlen : r < ((stringify st r).1).length := by
    rw [stringify_eq]
    simpa using h
  rw [stringify_eq, selAt_set_self _ hlen, h1]
  simp

/-- Claim C9: `stringify` resets only the text and the rank; the three
duplicate-occurrence flags of the selector it is called on are unchanged, so
on a selector that already contains an element part, calling `element` again
right after `stringify` still fails with the duplicate error even though the
text was cleared. -/
theorem c9_stringify_keeps_flags (st : Store) (r : Nat) (v : String) (h : r < st.length) :
    (selAt (stringify st r).1 r).isEl = (selAt st r).isEl
  ∧ (selAt (stringify st r).1 r).isId = (selAt st r).isId
  ∧ (selAt (stringify st r).1 r).isPsEl = (selAt st r).isPsEl
  ∧ ((selAt st r).isEl = true → (element (stringify st r).1 r v).2 = .error getErr) := by
  rw [stringify_eq]
  have h1 : selAt (st.set r { selAt st r with res := "", index := -1 }) r =
      { selAt st r with res := "", index := -1 } := selAt_set_self _ h
  refine ⟨by rw [h1], by rw [h1], by rw [h1], fun hEl => ?_⟩
  rw [element_dup v (by rw [h1]; exact hEl)]

/-- Witness for C5's theorem: after a `class('a')` chain is rendered, the
facade's text and rank are reset, and a fresh `class('b')` chain renders `".b"`. -/
theorem c5_witness :
    (stringify ((«class» initStore 0 "a").1) 0).2 = ".a"
  ∧ (selAt (stringify ((«class» initStore 0 "a").1) 0).1 0).res = ""
  ∧ (selAt (stringify ((«class» initStore 0 "a").1) 0).1 0).index = -1
  ∧ (stringify ((«class» (stringify ((«class» initStore 0 "a").1) 0).1 0 "b").1) 0).2 =
      "." ++ "b" := by
  have h := c5_stringify_resets ((«class» initStore 0 "a").1) 0 "b" (by decide)
  exact ⟨h.1.trans (by decide), h.2.1, h.2.2.1, h.2.2.2⟩

/-- Witness for C9's theorem: on the object produced by `element('div')`,
`stringify` clears the text but leaves `isEl` set, so `element('span')`
afterwards still raises the duplicate error. -/
theorem c9_witness :
    (selAt (stringify (element initStore 0 "div").1 1).1 1).isEl =
      (selAt (element initStore 0 "div").1 1).isEl
  ∧ (element (stringify (element initStore 0 "div").1 1).1 1 "span").2 = .error getErr := by
  have h := c9_stringify_keeps_flags ((element initStore 0 "div").1) 1 "span" (by decide)
  exact ⟨h.1, h.2.2.2 rfl⟩

end ObjectsTasks

namespace ObjectsTasks

/-- Claim C7: `attr` appends the raw attribute expression wrapped in square
brackets (`[value]`) and `pseudoClass` appends `:value`; in particular
`element('a').attr('href$=".png"').pseudoClass('focus')` followed by
`stringify()` yields `'a[href$=".png"]:focus'`. -/
theorem c7_attr_pseudoClass_fragments (st : Store) (r : Nat) (v : String)
    (h : r < st.length) :
    ((selAt st r).index ≤ 3 →
       (attr st r v).2 = .ok r ∧
       (selAt (attr st r v).1 r).res = (selAt st r).res ++ "[" ++ v ++ "]")
  ∧ ((selAt st r).index ≤ 4 →
       (pseudoClass st r v).2 = .ok r ∧
       (selAt (pseudoClass st r v).1 r).res = (selAt st r).res ++ ":" ++ v)
  ∧ (stringify
      ((pseudoClass ((attr ((element initStore 0 "a").1) 1 "href$=\".png\"").1) 1
        "focus").1) 1).2 = "a[href$=\".png\"]:focus" := by
  refine ⟨fun h3 => ?_, fun h4 => ?_, rfl⟩
  · rw [attr_ok v h3]
    exact ⟨rfl, by rw [selAt_set_self _ h]⟩
  · rw [pseudoClass_ok v h4]
    exact ⟨rfl, by rw [selAt_set_self _ h]⟩

/-- Witness for C7's theorem on the object produced by `element('a')`. -/
theorem c7_witness :
    (attr ((element initStore 0 "a").1) 1 "x").2 = .ok 1
  ∧ (selAt (attr ((element initStore 0 "a").1) 1 "x").1 1).res =
      (selAt ((element initStore 0 "a").1) 1).res ++ "[" ++ "x" ++ "]" := by
  have h := c7_attr_pseudoClass_fragments ((element initStore 0 "a").1) 1 "x" (by decide)
  exact h.1 (by decide)

/-- Claim C6: both error kinds are raised before any mutation of the receiver
is committed: whenever an append operation fails (with either error), the
selector object it was called on is observably unchanged — same text, same
rank, same duplicate flags.  (`element`, `id`, `pseudoElement` only ever
mutate a fresh copy, and `class`, `attr`, `pseudoClass` perform their order
check before touching `this`.) -/
theorem c6_fail_fast_no_mutation (st : Store) (r : Nat) (v : String) (h : r < st.length) :
    (∀ e, (element st r v).2 = .error e → selAt (element st r v).1 r = selAt st r)
  ∧ (∀ e, (id st r v).2 = .error e → selAt (id st r v).1 r = selAt st r)
  ∧ (∀ e, («class» st r v).2 = .error e → selAt («class» st r v).1 r = selAt st r)
  ∧ (∀ e, (attr st r v).2 = .error e → selAt (attr st r v).1 r = selAt st r)
  ∧ (∀ e, (pseudoClass st r v).2 = .error e → selAt (pseudoClass st r v).1 r = selAt st r)
  ∧ (∀ e, (pseudoElement st r v).2 = .error e →
      selAt (pseudoElement st r v).1 r = selAt st r) := by
  refine ⟨fun e he => ?_, fun e he => ?_, fun e he => ?_, fun e he => ?_,
    fun e he => ?_, fun e he => ?_⟩
  · by_cases h1 : (selAt st r).isEl = true
    · rw [element_dup v h1]
    · have h1' : (selAt st r).isEl = false := by simpa using h1
      by_cases h2 : 0 < (selAt st r).index
      · rw [element_err v h1' h2]
        exact selAt_append_left _ h
      · rw [element_ok v h1' (not_lt.mp h2)] at he
        simp at he
  · by_cases h1 : (selAt st r).isId = true
    · rw [id_dup v h1]
    · have h1' : (selAt st r).isId = false := by simpa using h1
      by_cases h2 : 1 < (selAt st r).index
      · rw [id_err v h1' h2]
        exact selAt_append_left _ h
      · rw [id_ok v h1' (not_lt.mp h2)] at he
        simp at he
  · by_cases h2 : 2 < (selAt st r).index
    · rw [class_err v h2]
    · rw [class_ok v (not_lt.mp h2)] at he
      simp at he
  · by_cases h2 : 3 < (selAt st r).index
    · rw [attr_err v h2]
    · rw [attr_ok v (not_lt.mp h2)] at he
      simp at he
  · by_cases h2 : 4 < (selAt st r).index
    · rw [pseudoClass_err v h2]
    · rw [pseudoClass_ok v (not_lt.mp h2)] at he
      simp at he
  · by_cases h1 : (selAt st r).isPsEl = true
    · rw [pseudoElement_dup v h1]
    · have h1' : (selAt st r).isPsEl = false := by simpa using h1
      by_cases h2 : 5 < (selAt st r).index
      · rw [pseudoElement_err v h1' h2]
        exact selAt_append_left _ h
      · rw [pseudoElement_ok v h1' (not_lt.mp h2)] at he
        simp at he

/-- Witness for C6's theorem: a duplicate `element` call fails and leaves the
selector it was called on unchanged. -/
theorem c6_witness :
    selAt (element ((element initStore 0 "div").1) 1 "span").1 1 =
      selAt ((element initStore 0 "div").1) 1 := by
  have h := c6_fail_fast_no_mutation ((element initStore 0 "div").1) 1 "span" (by decide)
  exact h.1 getErr rfl

/-- Claim C10: `class`, `attr`, and `pseudoClass` mutate the receiver in
place and return that same object (the result reference is the receiver's),
whereas `element`, `id`, and `pseudoElement` return a fresh copy and leave
the receiver untouched; consequently two chains begun from the shared facade
with `class` alias one accumulation: after `s1 = cssSelectorBuilder.class('a')`
and `cssSelectorBuilder.class('b')`, rendering `s1` yields `'.a.b'`. -/
theorem c10_inplace_vs_copy (st : Store) (r : Nat) (v : String) (h : r < st.length) :
    ((selAt st r).index ≤ 2 →
       («class» st r v).2 = .ok r ∧
       (selAt («class» st r v).1 r).res = (selAt st r).res ++ "." ++ v)
  ∧ ((selAt st r).index ≤ 3 →
       (attr st r v).2 = .ok r ∧
       (selAt (attr st r v).1 r).res = (selAt st r).res ++ "[" ++ v ++ "]")
  ∧ ((selAt st r).index ≤ 4 →
       (pseudoClass st r v).2 = .ok r ∧
       (selAt (pseudoClass st r v).1 r).res = (selAt st r).res ++ ":" ++ v)
  ∧ ((selAt st r).isEl = false → (selAt st r).index ≤ 0 →
       (element st r v).2 = .ok st.length ∧ st.length ≠ r ∧
       selAt (element st r v).1 r = selAt st r)
  ∧ ((selAt st r).isId = false → (selAt st r).index ≤ 1 →
       (id st r v).2 = .ok st.length ∧ st.length ≠ r ∧
       selAt (id st r v).1 r = selAt st r)
  ∧ ((selAt st r).isPsEl = false → (selAt st r).index ≤ 5 →
       (pseudoElement st r v).2 = .ok st.length ∧ st.length ≠ r ∧
       selAt (pseudoElement st r v).1 r = selAt st r)
  ∧ (stringify ((«class» ((«class» initStore 0 "a").1) 0 "b").1) 0).2 = ".a.b" := by
  refine ⟨fun h2 => ?_, fun h2 => ?_, fun h2 => ?_, fun h1 h2 => ?_, fun h1 h2 => ?_,
    fun h1 h2 => ?_, rfl⟩
  · rw [class_ok v h2]
    exact ⟨rfl, by rw [selAt_set_self _ h]⟩
  · rw [attr_ok v h2]
    exact ⟨rfl, by rw [selAt_set_self _ h]⟩
  · rw [pseudoClass_ok v h2]
    exact ⟨rfl, by rw [selAt_set_self _ h]⟩
  · rw [element_ok v h1 h2]
    exact ⟨rfl, (Nat.ne_of_lt h).symm, selAt_append_left _ h⟩
  · rw [id_ok v h1 h2]
    exact ⟨rfl, (Nat.ne_of_lt h).symm, selAt_append_left _ h⟩
  · rw [pseudoElement_ok v h1 h2]
    exact ⟨rfl, (Nat.ne_of_lt h).symm, selAt_append_left _ h⟩

/-- Witness for C10's theorem on the fresh facade. -/
theorem c10_witness :
    («class» initStore 0 "a").2 = .ok 0
  ∧ (element initStore 0 "a").2 = .ok 1
  ∧ selAt (element initStore 0 "a").1 0 = selAt initStore 0 := by
  have h := c10_inplace_vs_copy initStore 0 "a" (by decide)
  exact ⟨(h.1 (by decide)).1, (h.2.2.2.1 rfl (by decide)).1,
    (h.2.2.2.1 rfl (by decide)).2.2⟩

end ObjectsTasks

namespace ObjectsTasks

/-- Claim C1: every append operation applies the ordering rule — writing its
own rank as `element ↦ 0`, `id ↦ 1`, `class ↦ 2`, `attribute ↦ 3`,
`pseudo-class ↦ 4`, `pseudo-element ↦ 5`: if the rank last recorded on the
chain exceeds the operation's own rank the call fails with the order error;
otherwise (also on equality) it succeeds and the selector it returns records
exactly its own rank, which is therefore never below the previous one.  For
`element`, `id`, `pseudoElement` this is stated under the hypothesis that
their duplicate check does not fire first. -/
theorem c1_rank_order_rule (st : Store) (r : Nat) (v : String) (h : r < st.length) :
    ((selAt st r).isEl = false →
       (0 < (selAt st r).index → (element st r v).2 = .error getErrOrder)
     ∧ ((selAt st r).index ≤ 0 →
          (element st r v).2 = .ok st.length
        ∧ (selAt (element st r v).1 st.length).index = 0
        ∧ (selAt st r).index ≤ (selAt (element st r v).1 st.length).index))
  ∧ ((selAt st r).isId = false →
       (1 < (selAt st r).index → (id st r v).2 = .error getErrOrder)
     ∧ ((selAt st r).index ≤ 1 →
          (id st r v).2 = .ok st.length
        ∧ (selAt (id st r v).1 st.length).index = 1
        ∧ (selAt st r).index ≤ (selAt (id st r v).1 st.length).index))
  ∧ ((2 < (selAt st r).index → («class» st r v).2 = .error getErrOrder)
     ∧ ((selAt st r).index ≤ 2 →
          («class» st r v).2 = .ok r
        ∧ (selAt («class» st r v).1 r).index = 2
        ∧ (selAt st r).index ≤ (selAt («class» st r v).1 r).index))
  ∧ ((3 < (selAt st r).index → (attr st r v).2 = .error getErrOrder)
     ∧ ((selAt st r).index ≤ 3 →
          (attr st r v).2 = .ok r
        ∧ (selAt (attr st r v).1 r).index = 3
        ∧ (selAt st r).index ≤ (selAt (attr st r v).1 r).index))
  ∧ ((4 < (selAt st r).index → (pseudoClass st r v).2 = .error getErrOrder)
     ∧ ((selAt st r).index ≤ 4 →
          (pseudoClass st r v).2 = .ok r
        ∧ (selAt (pseudoClass st r v).1 r).index = 4
        ∧ (selAt st r).index ≤ (selAt (pseudoClass st r v).1 r).index))
  ∧ ((selAt st r).isPsEl = false →
       (5 < (selAt st r).index → (pseudoElement st r v).2 = .error getErrOrder)
     ∧ ((selAt st r).index ≤ 5 →
          (pseudoElement st r v).2 = .ok st.length
        ∧ (selAt (pseudoElement st r v).1 st.length).index = 5
        ∧ (selAt st r).index ≤ (selAt (pseudoElement st r v).1 st.length).index)) := by
  refine ⟨fun h1 => ⟨fun h2 => ?_, fun h2 => ?_⟩, fun h1 => ⟨fun h2 => ?_, fun h2 => ?_⟩,
    ⟨fun h2 => ?_, fun h2 => ?_⟩, ⟨fun h2 => ?_, fun h2 => ?_⟩,
    ⟨fun h2 => ?_, fun h2 => ?_⟩, fun h1 => ⟨fun h2 => ?_, fun h2 => ?_⟩⟩
  · rw [element_err v h1 h2]
  · rw [element_ok v h1 h2]
    exact ⟨rfl, by rw [selAt_concat_length], by rw [selAt_concat_length]; exact h2⟩
  · rw [id_err v h1 h2]
  · rw [id_ok v h1 h2]
    exact ⟨rfl, by rw [selAt_concat_length], by rw [selAt_concat_length]; exact h2⟩
  · rw [class_err v h2]
  · rw [class_ok v h2]
    exact ⟨rfl, by rw [selAt_set_self _ h], by rw [selAt_set_self _ h]; exact h2⟩
  · rw [attr_err v h2]
  · rw [attr_ok v h2]
    exact ⟨rfl, by rw [selAt_set_self _ h], by rw [selAt_set_self _ h]; exact h2⟩
  · rw [pseudoClass_err v h2]
  · rw [pseudoClass_ok v h2]
    exact ⟨rfl, by rw [selAt_set_self _ h], by rw [selAt_set_self _ h]; exact h2⟩
  · rw [pseudoElement_err v h1 h2]
  · rw [pseudoElement_ok v h1 h2]
    exact ⟨rfl, by rw [selAt_concat_length], by rw [selAt_concat_length]; exact h2⟩

/-- Witness for C1's theorem: a successful `element` on the fresh facade
records rank 0, and `class` on a selector whose recorded rank is 5 fails
with the order error. -/
theorem c1_witness :
    (element initStore 0 "div").2 = .ok 1
  ∧ (selAt (element initStore 0 "div").1 1).index = 0
  ∧ (selAt initStore 0).index ≤ (selAt (element initStore 0 "div").1 1).index
  ∧ («class» dupAll 0 "a").2 = .error getErrOrder := by
  have h := c1_rank_order_rule initStore 0 "div" (by decide)
  have h' := c1_rank_order_rule dupAll 0 "a" (by decide)
  have hok := (h.1 rfl).2 (by decide)
  exact ⟨hok.1, hok.2.1, hok.2.2, h'.2.2.1.1 (by decide)⟩

end ObjectsTasks

namespace ObjectsTasks

/-- Claim C4, counterexample: when the same selector object is passed as both
operands, `combine` does not render `textA ++ " " ++ c ++ " " ++ textB`.
Here `s1 = cssSelectorBuilder.class('a')` (the facade itself, text `".a"`),
and `combine(s1, '>', s1)` renders `".a > "` — the first `stringify` already
reset the shared object, so the second operand contributes nothing, instead
of the claimed `".a > .a"`. -/
theorem c4_counterexample_aliasing :
    (stringify (combine ((«class» initStore 0 "a").1) 0 0 ">" 0).1
      (combine ((«class» initStore 0 "a").1) 0 0 ">" 0).2).2 = ".a > "
  ∧ (".a > " : String) ≠ ".a" ++ " " ++ ">" ++ " " ++ ".a" :=
  ⟨rfl, by decide⟩

/-- Claim C4 (amended): for every pair of *distinct* built selector objects
`A` and `B` and every combinator string `c`, `combine(A, c, B)` (on any valid
receiver) produces a selector whose rendered text is the text of `A`, one
space, `c`, one space, then the text of `B`, regardless of the combinator
symbol.  (When `A` and `B` are the same object the first `stringify` resets
it before the second reads it, so the restriction to distinct objects is
necessary; see the counterexample.) -/
theorem c4_combine_single_space_padding (st : Store) (rT rA rB : Nat) (c : String)
    (hT : rT < st.length) (hAB : rA ≠ rB) :
    (stringify (combine st rT rA c rB).1 (combine st rT rA c rB).2).2 =
      (selAt st rA).res ++ " " ++ c ++ " " ++ (selAt st rB).res := by
  simp only [combine, stringify_eq]
  rw [selAt_set_self _ (by simpa using hT)]
  rw [selAt_set_ne _ _ hAB]

/-- Witness for C4's theorem: `combine(element('div'), '>', id('x'))` on the
facade renders `'div > #x'` (the two operand chains produce the distinct
objects 1 and 2). -/
theorem c4_witness :
    (stringify
      (combine ((id ((element initStore 0 "div").1) 0 "x").1) 0 1 ">" 2).1
      (combine ((id ((element initStore 0 "div").1) 0 "x").1) 0 1 ">" 2).2).2 =
    "div > #x" := by
  have h := c4_combine_single_space_padding ((id ((element initStore 0 "div").1) 0 "x").1)
    0 1 2 ">" (by decide) (by decide)
  exact h.trans (by decide)

end ObjectsTasks

namespace ObjectsTasks

/-! ### `getJSON` / `fromJSON`

`getJSON(obj)` is `JSON.stringify(obj)` and `fromJSON(proto, json)` is
`JSON.parse` followed by `new proto.constructor(...Object.keys(obj).map(key => obj[key]))`.
The plain data objects these act on are modelled as ordered field lists
(`JObj`), and the JSON text exchanged between the platform primitives
`JSON.stringify` / `JSON.parse` is modelled one level above characters, as
the stream of JSON tokens of a flat object literal —
`{ "name": value, ... }` — which keeps the primitives' round-trip guarantee
a provable property of the model instead of an assumption. -/

/-- A JSON-representable primitive field value (number or string). -/
inductive JVal
  | num (n : Int)
  | str (s : String)
deriving Repr, DecidableEq

/-- A plain data object: its fields in property order. -/
abbrev JObj := List (String × JVal)

/-- One token of the serialized text of a flat JSON object literal:
the two braces, the separators, a quoted field name, or a field value. -/
inductive JTok
  | objStart
  | objEnd
  | comma
  | colon
  | fieldName (s : String)
  | fieldVal (v : JVal)
deriving Repr, DecidableEq

/-- The tokens following the first field in `JSON.stringify` output: for each
further field a comma then `"name": value`, and the closing brace. -/
def serTail : JObj → List JTok
  | [] => [.objEnd]
  | f :: fs => .comma :: .fieldName f.1 :: .colon :: .fieldVal f.2 :: serTail fs

/-- `getJSON(obj) = JSON.stringify(obj)` at token level:
`{}` for the empty object, otherwise `{ "name": value` then `serTail`. -/
def getJSON : JObj → List JTok
  | [] => [.objStart, .objEnd]
  | f :: fs => .objStart :: .fieldName f.1 :: .colon :: .fieldVal f.2 :: serTail fs

/-- Parser loop of `JSON.parse` after the first field: a closing brace ends
the object, a comma must be followed by another `"name": value` field;
anything else is a syntax error. -/
def parseTail : List JTok → Option (JObj × List JTok)
  | .objEnd :: ts => some ([], ts)
  | .comma :: .fieldName n :: .colon :: .fieldVal v :: ts =>
      (parseTail ts).map (fun p => ((n, v) :: p.1, p.2))
  | _ => none

/-- `JSON.parse` for a flat object literal: `{}`, or `{ "name": value` then
the field loop, requiring the whole input to be consumed; `none` models the
exception thrown on malformed text. -/
def parseJSON : List JTok → Option JObj
  | [.objStart, .objEnd] => some []
  | .objStart :: .fieldName n :: .colon :: .fieldVal v :: ts =>
      match parseTail ts with
      | some (fs, []) => some ((n, v) :: fs)
      | _ => none
  | _ => none

/-- JavaScript property read `obj[key]` on a parsed object; every key passed
to it below occurs in `o`, so the fallback is never read. -/
def propGet (o : JObj) (k : String) : JVal :=
  (((o.find? (fun f => f.1 == k)).map Prod.snd).getD (JVal.num 0))

/-- `fromJSON(proto, json)`: parse the text (`none` on a parse error), take
`Object.keys(obj)` in property order, and pass `obj[key]` for each key
positionally to the designated constructor (`new proto.constructor(...)`,
here the function `ctor`). -/
def fromJSON (ctor : List JVal → JObj) (json : List JTok) : Option JObj :=
  (parseJSON json).map (fun obj =>
    let keys := obj.map Prod.fst
    ctor (keys.map (fun key => propGet obj key)))

lemma parseTail_serTail (fs : JObj) : parseTail (serTail fs) = some (fs, []) := by
  induction fs with
  | nil => rfl
  | cons f fs ih => simp [serTail, parseTail, ih]

lemma parseJSON_getJSON (o : JObj) : parseJSON (getJSON o) = some o := by
  cases o with
  | nil => rfl
  | cons f fs => simp [getJSON, parseJSON, parseTail_serTail fs]

lemma propGet_head (f : String × JVal) (fs : JObj) : propGet (f :: fs) f.1 = f.2 := by
  simp [propGet, List.find?]

lemma propGet_tail (f : String × JVal) (fs : JObj) (k : String) (hk : k ≠ f.1) :
    propGet (f :: fs) k = propGet fs k := by
  simp [propGet, List.find?, beq_eq_false_iff_ne.mpr (Ne.symm hk)]

lemma keys_map_propGet (o : JObj) (h : (o.map Prod.fst).Nodup) :
    (o.map Prod.fst).map (fun key => propGet o key) = o.map Prod.snd := by
  induction o with
  | nil => rfl
  | cons f fs ih =>
    rw [List.map_cons, List.nodup_cons] at h
    rw [List.map_cons, List.map_cons, List.map_cons, propGet_head f fs]
    refine congrArg _ ?_
    rw [List.map_congr_left (fun k hk => propGet_tail f fs k (fun he => h.1 (he ▸ hk)))]
    exact ih h.2

end ObjectsTasks

namespace ObjectsTasks

lemma zip_fst_snd (o : JObj) : (o.map Prod.fst).zip (o.map Prod.snd) = o := by
  induction o with
  | nil => rfl
  | cons f fs ih => simp [List.zip, ih]

/-- Claim C8: serializing a plain data object with `getJSON` and
reconstructing it with `fromJSON` round-trips it: `fromJSON` reads the
serialized field names and passes their values positionally, in field order,
to the designated constructor — here the object's own constructor, which
assigns its positional arguments to those fields in the same order — and
the result equals the original.  (JavaScript objects cannot carry two
properties of the same name, hence the distinct-field-names hypothesis.) -/
theorem c8_getJSON_fromJSON_roundtrip (o : JObj) (h : (o.map Prod.fst).Nodup) :
    fromJSON (fun vs => (o.map Prod.fst).zip vs) (getJSON o) = some o := by
  rw [fromJSON, parseJSON_getJSON o]
  show some ((o.map Prod.fst).zip ((o.map Prod.fst).map (fun key => propGet o key))) = some o
  rw [keys_map_propGet o h, zip_fst_snd o]

/-- Witness for C8's theorem on `{ width: 10, height: 20 }`. -/
theorem c8_witness :
    fromJSON
      (fun vs =>
        (([("width", JVal.num 10), ("height", JVal.num 20)] : JObj).map Prod.fst).zip vs)
      (getJSON [("width", JVal.num 10), ("height", JVal.num 20)]) =
    some [("width", JVal.num 10), ("height", JVal.num 20)] :=
  c8_getJSON_fromJSON_roundtrip [("width", JVal.num 10), ("height", JVal.num 20)] (by decide)

end ObjectsTasks
